import Mathlib

/-!
Verification of the RBAC middleware of `main.py` (`role_based_access_control`,
lines 50-80), the only access-control logic of the repository.

The middleware is embedded shallowly:
* a request carries a path, a cookie dictionary and a header dictionary;
* `jwt.decode` is an external library call, so the middleware is parameterized
  by a decode oracle `decode : String → String → List String → DecodeResult`
  (token, secret key, algorithms) whose outcomes are exactly the ones the
  middleware distinguishes: success with a payload, `ExpiredSignatureError`,
  or `InvalidTokenError` (every PyJWT decoding error is a subclass of one of
  these two);
* the `await call_next(request)` continuation and the `RedirectResponse`
  constructor are parameters of `rbacRun`, so the same translation yields the
  pure decision (`role_based_access_control`) and the response-level runs used
  for the frame and status-code claims.
-/

namespace Panda

/-- Outcome of `jwt.decode(token, secret_key, algorithms=[algorithm])` as the
middleware observes it: a decoded payload (a JSON object; only the string
field `role` is read, so the payload is kept as a string dictionary),
`jwt.ExpiredSignatureError`, or `jwt.InvalidTokenError`. -/
inductive DecodeResult where
  | ok (payload : List (String × String))
  | expired
  | invalid
deriving DecidableEq

/-- The pieces of the inbound HTTP request the middleware reads:
`request.url.path`, `request.cookies`, `request.headers`. -/
structure Request where
  path : String
  cookies : List (String × String)
  headers : List (String × String)
deriving DecidableEq

/-- The process-wide configuration the middleware reads:
`settings.secret_key` and `settings.algorithm`. -/
structure ServerState where
  secretKey : String
  algorithm : String
deriving DecidableEq

/-- Structural prefix test on character lists (`true` when the first list is
a prefix of the second). -/
def charListIsPrefix : List Char → List Char → Bool
  | [], _ => true
  | _ :: _, [] => false
  | c :: cs, d :: ds => if c = d then charListIsPrefix cs ds else false

/-- Python `s.startswith(p)`, computed on the character lists so that it
evaluates by kernel reduction. -/
def pyStartsWith (s p : String) : Bool :=
  charListIsPrefix p.data s.data

/-- Python `dict.get(k)`: the value at key `k`, or `None`. -/
def dictGet (d : List (String × String)) (k : String) : Option String :=
  (d.find? (fun kv => kv.1 = k)).map (·.2)

/-- Python `s.split(" ")` on the character list of `s`: split at every single
space, keeping empty pieces. -/
def pySplitSpace : List Char → List Char → List String
  | [], acc => [String.mk acc.reverse]
  | c :: cs, acc =>
    if c = ' ' then String.mk acc.reverse :: pySplitSpace cs []
    else pySplitSpace cs (c :: acc)

/-- `auth_header.split(" ")[1]` (main.py line 62); the guard on line 61
guarantees the header contains a space, so index 1 exists. -/
def bearerToken (h : String) : String :=
  (pySplitSpace h.data []).getD 1 ""

/-- Lines 58-62: `token = request.cookies.get("access_token")`; if that is
falsy (`None` or `""`), consult the `Authorization` header, and when it is
truthy and starts with `"Bearer "` take the word after `"Bearer"`. The result
is the value of the Python variable `token` at line 64 (`None` stays `none`,
a falsy `""` cookie stays `some ""`). -/
def extractToken (req : Request) : Option String :=
  let token := dictGet req.cookies "access_token"
  if token = none ∨ token = some "" then
    match dictGet req.headers "Authorization" with
    | some h =>
      if h ≠ "" ∧ pyStartsWith h "Bearer " then some (bearerToken h) else token
    | none => token
  else token

/-- Line 53: `public_paths = ["/api/", "/static/", "/docs", "/redoc",
"/login", "/health", "/"]`. -/
def publicPaths : List String :=
  ["/api/", "/static/", "/docs", "/redoc", "/login", "/health", "/"]

/-- Line 54: `any(request.url.path.startswith(path) for path in public_paths)`
-/
def isPublicPath (path : String) : Bool :=
  publicPaths.any (fun p => pyStartsWith path p)

/-- The two ways the middleware can finish: forward the request to
`call_next`, or short-circuit with `RedirectResponse(url=...)`. -/
inductive Decision where
  | forward
  | redirect (url : String)
deriving DecidableEq

/-- The body of `role_based_access_control` (main.py lines 52-80), with the
continuation `call_next` and the `RedirectResponse` constructor abstracted so
the same translation serves decision-level and response-level statements:

* lines 53-55: public-path short circuit;
* lines 57-62: token extraction (`extractToken`);
* lines 64-65: `if not token: return RedirectResponse(url="/login")`
  (Python falsy: `None` or `""`);
* lines 68-78: decode and role enforcement, `except` arms for
  `ExpiredSignatureError` and `InvalidTokenError`
  (`payload.get("role") != "admin"` is `userRole ≠ some "admin"`:
  a missing role is `None ≠ "admin"`, hence a mismatch, as in Python);
* line 80: `return await call_next(request)`. -/
def rbacRun {α : Type} (decode : String → String → List String → DecodeResult)
    (st : ServerState) (req : Request)
    (callNext : Request → α) (mkRedirect : String → α) : α :=
  if isPublicPath req.path then callNext req
  else
    match extractToken req with
    | none => mkRedirect "/login"
    | some t =>
      if t = "" then mkRedirect "/login"
      else
        match decode t st.secretKey [st.algorithm] with
        | .expired => mkRedirect "/login"
        | .invalid => mkRedirect "/login"
        | .ok payload =>
          let userRole := dictGet payload "role"
          if pyStartsWith req.path "/admin/" ∧ userRole ≠ some "admin" then
            mkRedirect "/client/requests"
          else if pyStartsWith req.path "/client/" ∧ userRole ≠ some "client" then
            mkRedirect "/admin/requests"
          else callNext req

/-- The access decision of the middleware for one inbound request. -/
def role_based_access_control
    (decode : String → String → List String → DecodeResult)
    (st : ServerState) (req : Request) : Decision :=
  rbacRun decode st req (fun _ => Decision.forward) Decision.redirect

/-- One evaluation of the middleware with the process state threaded
explicitly: the middleware only reads `settings`, it assigns nothing, so the
state comes back unchanged. -/
def rbacStep (decode : String → String → List String → DecodeResult)
    (st : ServerState) (req : Request) : Decision × ServerState :=
  (role_based_access_control decode st req, st)

/-- Status code of the decision as sent on the wire: `RedirectResponse`
defaults to 307 Temporary Redirect; a forwarded request has no status of the
middleware's own. -/
def statusOf : Decision → Option Nat
  | .forward => none
  | .redirect _ => some 307

/-- An HTTP response, reduced to the fields the claims mention. -/
structure HttpResponse where
  status : Nat
  location : Option String
deriving DecidableEq

/-- `RedirectResponse(url=url)` with its default status code 307. -/
def redirectResponse (url : String) : HttpResponse :=
  ⟨307, some url⟩

/-- The middleware at the response level: redirects are built by
`redirectResponse`, forwarding yields whatever the downstream chain returns. -/
def rbacRespond (decode : String → String → List String → DecodeResult)
    (st : ServerState) (req : Request)
    (callNext : Request → HttpResponse) : HttpResponse :=
  rbacRun decode st req callNext redirectResponse

/-- Fusion lemma: any instantiation of the continuations is determined by the
pure decision. -/
theorem rbacRun_eq_decision {α : Type}
    (decode : String → String → List String → DecodeResult)
    (st : ServerState) (req : Request)
    (callNext : Request → α) (mkRedirect : String → α) :
    rbacRun decode st req callNext mkRedirect =
      (match role_based_access_control decode st req with
       | .forward => callNext req
       | .redirect u => mkRedirect u) := by
  unfold role_based_access_control rbacRun
  by_cases hp : isPublicPath req.path = true
  · simp [hp]
  · simp only [Bool.not_eq_true] at hp
    simp only [hp, Bool.false_eq_true, if_false]
    cases htok : extractToken req with
    | none => simp
    | some t =>
      by_cases ht : t = ""
      · simp [ht]
      · simp only [ht, if_false]
        cases hdec : decode t st.secretKey [st.algorithm] with
        | expired => simp
        | invalid => simp
        | ok payload =>
          by_cases ha : pyStartsWith req.path "/admin/" ∧
              dictGet payload "role" ≠ some "admin"
          · simp [ha]
          · by_cases hc : pyStartsWith req.path "/client/" ∧
                dictGet payload "role" ≠ some "client"
            · simp [ha, hc]
            · simp [ha, hc]

/-- If the path is public the decision is forward. -/
theorem forward_of_public
    (decode : String → String → List String → DecodeResult)
    (st : ServerState) (req : Request)
    (h : isPublicPath req.path = true) :
    role_based_access_control decode st req = .forward := by
  unfold role_based_access_control rbacRun
  simp [h]

/-- A string starting with `"Bearer "` is not empty. -/
theorem ne_empty_of_bearer (h : String)
    (hb : pyStartsWith h "Bearer " = true) : h ≠ "" := by
  intro he
  subst he
  exact absurd hb (by decide)

/-- C1: a request whose path extends a member of the public-prefix list is
forwarded to the next handler unconditionally, whatever the cookies, headers,
token validity or role. -/
theorem public_path_always_allowed
    (decode : String → String → List String → DecodeResult)
    (st : ServerState) (req : Request)
    (h : ∃ p ∈ publicPaths, pyStartsWith req.path p = true) :
    role_based_access_control decode st req = .forward := by
  apply forward_of_public
  simpa [isPublicPath, List.any_eq_true] using h

/-- Witness for C1: `/docs` with no credential is forwarded. -/
theorem public_path_always_allowed_witness :
    (∃ p ∈ publicPaths, pyStartsWith "/docs" p = true)
    ∧ role_based_access_control (fun _ _ _ => DecodeResult.invalid)
        ⟨"secret", "HS256"⟩ ⟨"/docs", [], []⟩ = .forward :=
  ⟨by decide,
   public_path_always_allowed (fun _ _ _ => DecodeResult.invalid)
     ⟨"secret", "HS256"⟩ ⟨"/docs", [], []⟩ (by decide)⟩

/-- C2: since `"/"` is in the public list and the check is a startswith test,
every path beginning with `"/"` is public, so the middleware forwards every
such request — with any cookies, headers, decode outcome or role — and never
reaches the credential, decode or role branches. -/
theorem all_slash_paths_forwarded
    (decode : String → String → List String → DecodeResult)
    (st : ServerState) (path : String)
    (cookies headers : List (String × String))
    (h : pyStartsWith path "/" = true) :
    role_based_access_control decode st ⟨path, cookies, headers⟩ =
      .forward := by
  apply forward_of_public
  simp [isPublicPath, publicPaths, h]

/-- Witness for C2: even `/admin/requests` carrying a credential the decode
oracle rejects is forwarded, because its path begins with `"/"`. -/
theorem all_slash_paths_forwarded_witness :
    pyStartsWith "/admin/requests" "/" = true
    ∧ role_based_access_control (fun _ _ _ => DecodeResult.invalid)
        ⟨"secret", "HS256"⟩
        ⟨"/admin/requests", [("access_token", "garbage")], []⟩ = .forward :=
  ⟨by decide,
   all_slash_paths_forwarded (fun _ _ _ => DecodeResult.invalid)
     ⟨"secret", "HS256"⟩ "/admin/requests" [("access_token", "garbage")] []
     (by decide)⟩

/-- C3, behavior at the failing input: `GET /admin/requests` with no cookie
and no header is forwarded by the code (its path matches the public member
`"/"`), not redirected to `/login` as the claim states. -/
theorem admin_requests_no_credential_forwarded :
    role_based_access_control (fun _ _ _ => DecodeResult.invalid)
      ⟨"secret", "HS256"⟩ ⟨"/admin/requests", [], []⟩ = .forward := by
  decide

/-- C4, behavior at the failing input: `GET /admin/requests` with an expired
admin token in the cookie is forwarded by the code (public member `"/"`
matches first, so the token is never decoded), not redirected to `/login`. -/
theorem admin_requests_expired_token_forwarded :
    role_based_access_control (fun _ _ _ => DecodeResult.expired)
      ⟨"secret", "HS256"⟩
      ⟨"/admin/requests", [("access_token", "expired-admin-token")], []⟩ =
      .forward := by
  decide

/-- C5, behavior at the failing input: `GET /admin/requests` with a valid
unexpired token whose role is `client` is forwarded by the code (public
member `"/"` matches first), not redirected to `/client/requests`. -/
theorem admin_requests_client_role_forwarded :
    role_based_access_control (fun _ _ _ => DecodeResult.ok [("role", "client")])
      ⟨"secret", "HS256"⟩
      ⟨"/admin/requests", [("access_token", "client-token")], []⟩ =
      .forward := by
  decide

/-- C6, behavior at the failing input: `GET /client/requests` with a valid
unexpired token whose role is `admin` is forwarded by the code (public member
`"/"` matches first), not redirected to `/admin/requests`. -/
theorem client_requests_admin_role_forwarded :
    role_based_access_control (fun _ _ _ => DecodeResult.ok [("role", "admin")])
      ⟨"secret", "HS256"⟩
      ⟨"/client/requests", [("access_token", "admin-token")], []⟩ =
      .forward := by
  decide

/-- C7: credential extraction order. (1) A non-empty `access_token` cookie is
the token, the header is not consulted. (2) When the cookie is absent or
empty, an `Authorization` header starting with `"Bearer "` yields the word
after `"Bearer"`. (3) When neither yields a token, a request to a non-public
path is treated as carrying no credential: redirect to `/login`. -/
theorem credential_extraction_order
    (decode : String → String → List String → DecodeResult)
    (st : ServerState) (req : Request) :
    (∀ t, dictGet req.cookies "access_token" = some t → t ≠ "" →
      extractToken req = some t)
    ∧ ((dictGet req.cookies "access_token" = none ∨
        dictGet req.cookies "access_token" = some "") →
       ∀ h, dictGet req.headers "Authorization" = some h →
         pyStartsWith h "Bearer " = true →
         extractToken req = some (bearerToken h))
    ∧ ((extractToken req = none ∨ extractToken req = some "") →
       isPublicPath req.path = false →
       role_based_access_control decode st req = .redirect "/login") := by
  refine ⟨?_, ?_, ?_⟩
  · intro t hc hne
    unfold extractToken
    rw [hc]
    simp [hne]
  · intro hfalsy h hh hb
    have hne := ne_empty_of_bearer h hb
    unfold extractToken
    rcases hfalsy with hc | hc <;> rw [hc, hh] <;> simp [hne, hb]
  · intro hnotok hpub
    unfold role_based_access_control rbacRun
    rw [hpub]
    rcases hnotok with he | he <;> simp [he]

/-- Witness for C7: the cookie wins over the header; with a falsy cookie the
bearer header is used; with neither, a non-public path redirects to
`/login`. -/
theorem credential_extraction_order_witness :
    extractToken ⟨"/x", [("access_token", "cookietok")],
        [("Authorization", "Bearer headertok")]⟩ = some "cookietok"
    ∧ extractToken ⟨"/x", [],
        [("Authorization", "Bearer headertok")]⟩ = some "headertok"
    ∧ role_based_access_control (fun _ _ _ => DecodeResult.invalid)
        ⟨"secret", "HS256"⟩ ⟨"admin/secret", [], []⟩ = .redirect "/login" :=
  ⟨(credential_extraction_order (fun _ _ _ => DecodeResult.invalid)
      ⟨"secret", "HS256"⟩
      ⟨"/x", [("access_token", "cookietok")],
        [("Authorization", "Bearer headertok")]⟩).1
      "cookietok" (by decide) (by decide),
   ((credential_extraction_order (fun _ _ _ => DecodeResult.invalid)
      ⟨"secret", "HS256"⟩
      ⟨"/x", [], [("Authorization", "Bearer headertok")]⟩).2.1
      (Or.inl (by decide)) "Bearer headertok" (by decide) (by decide)).trans
      (by decide),
   (credential_extraction_order (fun _ _ _ => DecodeResult.invalid)
      ⟨"secret", "HS256"⟩ ⟨"admin/secret", [], []⟩).2.2
      (Or.inl (by decide)) (by decide)⟩

/-- C8: on every request the middleware either hands back the downstream
handler's response untouched, or its own response is a redirect whose status
is 307 — never a 4xx/5xx, with every failure kind handled inside the
middleware. -/
theorem failures_resolve_to_redirects
    (decode : String → String → List String → DecodeResult)
    (st : ServerState) (req : Request) (callNext : Request → HttpResponse) :
    rbacRespond decode st req callNext = callNext req
    ∨ ∃ u, rbacRespond decode st req callNext = redirectResponse u
        ∧ (redirectResponse u).status = 307
        ∧ (redirectResponse u).status < 400 := by
  unfold rbacRespond
  rw [rbacRun_eq_decision]
  cases role_based_access_control decode st req with
  | forward => exact Or.inl rfl
  | redirect u => exact Or.inr ⟨u, rfl, rfl, by norm_num [redirectResponse]⟩

/-- C9: the decision is deterministic and mutates no state: one evaluation
returns the state unchanged, and a second evaluation of the same request on
the resulting state yields the same decision. -/
theorem decision_idempotent
    (decode : String → String → List String → DecodeResult)
    (st : ServerState) (req : Request) :
    (rbacStep decode st req).2 = st
    ∧ (rbacStep decode (rbacStep decode st req).2 req).1 =
        (rbacStep decode st req).1 :=
  ⟨rfl, rfl⟩

/-- C10: whenever the decision is forward, the next handler receives exactly
the inbound request — for every continuation, the middleware's result is the
continuation applied to the unmodified request. -/
theorem allow_forwards_request_unmodified {α : Type}
    (decode : String → String → List String → DecodeResult)
    (st : ServerState) (req : Request)
    (h : role_based_access_control decode st req = .forward)
    (callNext : Request → α) (mkRedirect : String → α) :
    rbacRun decode st req callNext mkRedirect = callNext req := by
  rw [rbacRun_eq_decision, h]

/-- Witness for C10: instantiating the continuation with the identity shows
the forwarded request is the inbound one. -/
theorem allow_forwards_request_unmodified_witness :
    rbacRun (fun _ _ _ => DecodeResult.invalid) ⟨"secret", "HS256"⟩
      ⟨"/health", [], []⟩ (fun r => r) (fun _ => ⟨"", [], []⟩) =
      (⟨"/health", [], []⟩ : Request) :=
  allow_forwards_request_unmodified (fun _ _ _ => DecodeResult.invalid)
    ⟨"secret", "HS256"⟩ ⟨"/health", [], []⟩ (by decide)
    (fun r => r) (fun _ => ⟨"", [], []⟩)

end Panda
